import Mathlib

/-!
Verification of the SpineAI proxy services against their specification.

The development shallowly embeds the two Flask services of the repository:
`src/proxy.py` (namespace `SpineProxy`) and
`src/ragflow-backend/proxy/app.py` (namespace `RagProxy`).

JSON request/response values are modelled by the inductive type `Json`;
Python operations that can raise (`d.get(k)` on a non-dict, `xs[0]` on an
empty list, `", ".join(...)` on non-strings) are modelled in the `Except`
monad over an exception type `PyErr`, so that "the handler raises" is the
`.error` case and "the handler returns" is the `.ok` case.
-/

/-- A Python/JSON value as handled by the proxy services. -/
inductive Json where
  | null : Json
  | bool : Bool → Json
  | num : Int → Json
  | str : String → Json
  | arr : List Json → Json
  | obj : List (String × Json) → Json

/-- Python exceptions that the modelled code can raise.  Each carries the
`str(e)` rendering used when a handler interpolates the exception message. -/
inductive PyErr where
  | attributeError : String → PyErr
  | indexError : String → PyErr
  | typeError : String → PyErr
  | keyError : String → PyErr

/-- The `str(e)` rendering of an exception (used in `jsonify({"error": str(e)})`). -/
def excMsg : PyErr → String
  | .attributeError m => m
  | .indexError m => m
  | .typeError m => m
  | .keyError m => m

/-- Python type name of a value, used in exception messages. -/
def pyTypeName : Json → String
  | .null => "NoneType"
  | .bool _ => "bool"
  | .num _ => "int"
  | .str _ => "str"
  | .arr _ => "list"
  | .obj _ => "dict"

/-- Python truthiness of a JSON value (`if not x`). -/
def pyTruthy : Json → Bool
  | .null => false
  | .bool b => b
  | .num n => n != 0
  | .str s => s != ""
  | .arr xs => !xs.isEmpty
  | .obj kvs => !kvs.isEmpty

mutual

/-- Python `repr` of a value (as used by `str` on containers). -/
def pyRepr : Json → String
  | .null => "None"
  | .bool b => if b then "True" else "False"
  | .num n => toString n
  | .str s => "\x27" ++ s ++ "\x27"
  | .arr xs => "[" ++ String.intercalate ", " (pyReprList xs) ++ "]"
  | .obj kvs => "\x7b" ++ String.intercalate ", " (pyReprKVs kvs) ++ "\x7d"

/-- `repr` of the elements of a list value. -/
def pyReprList : List Json → List String
  | [] => []
  | x :: xs => pyRepr x :: pyReprList xs

/-- `repr` of the key/value pairs of a dict value. -/
def pyReprKVs : List (String × Json) → List String
  | [] => []
  | (k, v) :: kvs => ("\x27" ++ k ++ "\x27: " ++ pyRepr v) :: pyReprKVs kvs

end

/-- Python `str()` of a value, as performed by f-string interpolation. -/
def pyStr : Json → String
  | .str s => s
  | j => pyRepr j

/-- `d.get(k, default)`: on a dict, look the key up (first occurrence) and
fall back to `default`; on any other value raise `AttributeError`, exactly as
Python does for `None.get(...)` etc. -/
def pyGetD (j : Json) (k : String) (d : Json) : Except PyErr Json :=
  match j with
  | .obj kvs => .ok (((kvs.find? (fun p => p.1 == k)).map Prod.snd).getD d)
  | _ => .error (.attributeError
      ("\x27" ++ pyTypeName j ++ "\x27 object has no attribute \x27get\x27"))

/-- `d.get(k)` with the implicit `None` default. -/
def pyGet (j : Json) (k : String) : Except PyErr Json :=
  pyGetD j k .null

/-- `x[0]`: head of a list (raising `IndexError` when empty), first character
of a string, `KeyError` on a dict, `TypeError` on anything unsubscriptable. -/
def pyIndex0 : Json → Except PyErr Json
  | .arr [] => .error (.indexError "list index out of range")
  | .arr (x :: _) => .ok x
  | .str s =>
    match s.data with
    | [] => .error (.indexError "string index out of range")
    | c :: _ => .ok (.str (String.mk [c]))
  | .obj _ => .error (.keyError "0")
  | j => .error (.typeError ("\x27" ++ pyTypeName j ++ "\x27 object is not subscriptable"))

/-- Python `==` between a value and a string literal: true only for the equal
string (cross-type comparison is `False`, never an error). -/
def pyEqStr (j : Json) (s : String) : Bool :=
  match j with
  | .str t => t == s
  | _ => false

/-- Collect the elements of a list for `sep.join(...)`, raising `TypeError`
on the first non-string element, as Python does. -/
def pyJoinStrs : List Json → Except PyErr (List String)
  | [] => .ok []
  | .str s :: rest => do
    let rs ← pyJoinStrs rest
    .ok (s :: rs)
  | j :: _ => .error (.typeError
      ("sequence item: expected str instance, " ++ pyTypeName j ++ " found"))

/-- `sep.join(x)`: join a list of strings; a string is joined character by
character; anything else raises `TypeError`. -/
def pyJoin (sep : String) : Json → Except PyErr String
  | .arr xs => do
    let ss ← pyJoinStrs xs
    .ok (String.intercalate sep ss)
  | .str s => .ok (String.intercalate sep (s.data.map (fun c => String.mk [c])))
  | _ => .error (.typeError "can only join an iterable")

/-- The JSON error body `jsonify({"error": msg})` used by every failure path. -/
def errJson (msg : String) : Json :=
  .obj [("error", .str msg)]

/-- Whether a response body has the `{"error": "<message>"}` shape. -/
def isErrShaped : Json → Bool
  | .obj [("error", .str _)] => true
  | _ => false

/-- Whether one character list occurs inside another. -/
def charsInfix : List Char → List Char → Bool
  | pat, [] => pat.isEmpty
  | pat, c :: rest => pat.isPrefixOf (c :: rest) || charsInfix pat rest

/-- Whether `pat` occurs as a substring of `s` (on character lists). -/
def containsSub (s pat : String) : Bool :=
  charsInfix pat.data s.data

/-- Split a character list at newline characters. -/
def splitNl : List Char → List (List Char)
  | [] => [[]]
  | c :: rest =>
    match splitNl rest with
    | [] => [[c]]
    | l :: ls => if c == '\n' then [] :: l :: ls else (c :: l) :: ls

/-- The lines of a string: the segments between newline characters. -/
def linesOf (s : String) : List String :=
  (splitNl s.data).map String.mk

/-- Whether the string `s` begins with the prefix `pre` (on character lists). -/
def strBegins (pre s : String) : Bool :=
  pre.data.isPrefixOf s.data

/-- Total lookup `d.get(k, default)` restricted to dict values; non-dicts give
the default.  Used only in theorem statements, never by the embedded code. -/
def objGetTotal (j : Json) (k : String) (d : Json) : Json :=
  match j with
  | .obj kvs => (((kvs.find? (fun p => p.1 == k)).map Prod.snd).getD d)
  | _ => d

namespace RagProxy

/-! ### Context Extractor (`extract_patient_context`, app.py lines 298-335)

The loop body of the `for resource in fhir_resources` loop is split into one
function per `resourceType` branch; each returns the list of strings the
iteration appends to `context_parts`.  Python evaluates the default argument
of `dict.get` eagerly, so `code.get('text', code.get('coding', [{}])[0]...)`
indexes `coding` before `'text'` is even looked up; the monadic sequencing
below reproduces that order. -/

/-- The `Patient` branch (lines 305-312): two lines, name and demographics. -/
def patientParts (resource : Json) : Except PyErr (List String) := do
  let name0 ← pyGetD resource "name" (.arr [.obj []])
  let name ← pyIndex0 name0
  let gender ← pyGetD resource "gender" (.str "unknown")
  let birth_date ← pyGetD resource "birthDate" (.str "unknown")
  let given ← pyGetD name "given" (.arr [.str ""])
  let given0 ← pyIndex0 given
  let family ← pyGetD name "family" (.str "")
  .ok ["Patient: " ++ pyStr given0 ++ " " ++ pyStr family,
       "Gender: " ++ pyStr gender ++ ", Birth Date: " ++ pyStr birth_date]

/-- `code.get('text', code.get('coding', [{}])[0].get('display', default))`,
shared verbatim by the Condition, Observation and Procedure branches. -/
def codeText (resource : Json) (defaultText : String) : Except PyErr Json := do
  let code ← pyGetD resource "code" (.obj [])
  let coding ← pyGetD code "coding" (.arr [.obj []])
  let coding0 ← pyIndex0 coding
  let display ← pyGetD coding0 "display" (.str defaultText)
  pyGetD code "text" display

/-- The `Condition` branch (lines 314-318). -/
def conditionParts (resource : Json) : Except PyErr (List String) := do
  let text ← codeText resource "Unknown condition"
  .ok ["Condition: " ++ pyStr text]

/-- The `Observation` branch (lines 320-327): emits a line only when
`valueQuantity` is truthy. -/
def observationParts (resource : Json) : Except PyErr (List String) := do
  let text ← codeText resource "Unknown observation"
  let value ← pyGetD resource "valueQuantity" (.obj [])
  if pyTruthy value then do
    let v ← pyGetD value "value" (.str "")
    let u ← pyGetD value "unit" (.str "")
    .ok ["Observation: " ++ pyStr text ++ " = " ++ pyStr v ++ " " ++ pyStr u]
  else
    .ok []

/-- The `Procedure` branch (lines 329-333). -/
def procedureParts (resource : Json) : Except PyErr (List String) := do
  let text ← codeText resource "Unknown procedure"
  .ok ["Procedure: " ++ pyStr text]

/-- One loop iteration: dispatch on `resource.get('resourceType', 'Unknown')`;
unrecognized types append nothing. -/
def recordParts (resource : Json) : Except PyErr (List String) := do
  let resource_type ← pyGetD resource "resourceType" (.str "Unknown")
  if pyEqStr resource_type "Patient" then patientParts resource
  else if pyEqStr resource_type "Condition" then conditionParts resource
  else if pyEqStr resource_type "Observation" then observationParts resource
  else if pyEqStr resource_type "Procedure" then procedureParts resource
  else .ok []

/-- The whole loop: `context_parts` accumulated across all resources. -/
def allParts : List Json → Except PyErr (List String)
  | [] => .ok []
  | r :: rs => do
    let ps ← recordParts r
    let rest ← allParts rs
    .ok (ps ++ rest)

/-- `extract_patient_context` (lines 298-335): join the collected parts with
newlines, or return the sentinel when no part was collected. -/
def extract_patient_context (fhir_resources : List Json) : Except PyErr String := do
  let context_parts ← allParts fhir_resources
  .ok (if context_parts.isEmpty then "No patient context available"
       else String.intercalate "\n" context_parts)

end RagProxy

/-- An outbound HTTP POST issued by a handler: URL, JSON payload, timeout in
seconds, and the bearer value of the Authorization header (empty when the
call carries no Authorization header). -/
structure Call where
  url : String
  payload : Json
  timeoutSecs : Nat
  bearer : String

/-- The backend side of one outbound call, as observed by the handler:
an HTTP response with a status and parsed JSON body, a
`requests.exceptions.Timeout`, or another `requests.RequestException`
(connection refused, DNS failure, ...) carrying its `str(e)` rendering. -/
inductive CallOutcome where
  | resp : Nat → Json → CallOutcome
  | timeout : CallOutcome
  | netError : String → CallOutcome

namespace SpineProxy

/-! ### `src/proxy.py` — the `/query` route

The handler is a function of the configured `RAGFLOW_API_KEY` and
`RAGFLOW_URL`, the request body, and an oracle `backend` giving the outcome
of each outbound call.  It returns the `(status, body)` response together
with the ordered list of outbound calls it issued.  The whole body sits in
one `try` whose handlers translate `Timeout` to 504, any other
`RequestException` (including the `HTTPError` of `raise_for_status`) to 502,
and any other exception to `(500, {"error": str(e)})`, so the function is
total. -/

/-- The fixed SpineAI Assistant chat id (proxy.py line 62). -/
def chat_id : String := "8d19a384d25d11f0b8fa76278ce0f2bf"

/-- The session-creation call (proxy.py lines 66-74). -/
def sessionCall (ragflowUrl apiKey : String) : Call :=
  ⟨ragflowUrl ++ "/chats/" ++ chat_id ++ "/sessions",
   .obj [("name", .str "Spine Imaging Query")], 10, apiKey⟩

/-- The completion call (proxy.py lines 79-93). -/
def completionCall (ragflowUrl apiKey : String) (question session_id : Json) : Call :=
  ⟨ragflowUrl ++ "/chats/" ++ chat_id ++ "/completions",
   .obj [("question", question), ("stream", .bool false), ("session_id", session_id)],
   30, apiKey⟩

/-- The message of the `HTTPError` raised by `raise_for_status` on a non-2xx
status (the exact `requests` wording also includes the reason phrase, which
the model does not track). -/
def httpErrMsg (status : Nat) (url : String) : String :=
  toString status ++ " Error for url: " ++ url

/-- Second half of the handler (proxy.py lines 79-99): one completion call,
with the error translation of the surrounding `try`. -/
def completionPhase (apiKey ragflowUrl : String) (backend : Call → CallOutcome)
    (question session_id : Json) (trace : List Call) : (Nat × Json) × List Call :=
  match backend (completionCall ragflowUrl apiKey question session_id) with
  | .timeout => ((504, errJson "Request timeout"),
      trace ++ [completionCall ragflowUrl apiKey question session_id])
  | .netError m => ((502, errJson ("RAGFlow connection failed: " ++ m)),
      trace ++ [completionCall ragflowUrl apiKey question session_id])
  | .resp status body =>
    if 400 ≤ status then
      ((502, errJson ("RAGFlow connection failed: "
          ++ httpErrMsg status (completionCall ragflowUrl apiKey question session_id).url)),
       trace ++ [completionCall ragflowUrl apiKey question session_id])
    else
      ((200, body), trace ++ [completionCall ragflowUrl apiKey question session_id])

/-- `session_response.json().get("data", {}).get("id")` (proxy.py line 76). -/
def sessionId (body : Json) : Except PyErr Json := do
  let data ← pyGetD body "data" (.obj [])
  pyGet data "id"

/-- The `/query` handler (proxy.py lines 43-109). -/
def query (apiKey ragflowUrl : String) (backend : Call → CallOutcome)
    (body : Json) : (Nat × Json) × List Call :=
  match pyGet body "question" with
  | .error e => ((500, errJson (excMsg e)), [])
  | .ok question =>
    match pyGet body "conversation_id" with
    | .error e => ((500, errJson (excMsg e)), [])
    | .ok conversation_id =>
      if !pyTruthy question then
        ((400, errJson "question is required"), [])
      else if apiKey = "" then
        ((500, errJson "RAGFlow API key not configured"), [])
      else if !pyTruthy conversation_id then
        match backend (sessionCall ragflowUrl apiKey) with
        | .timeout => ((504, errJson "Request timeout"), [sessionCall ragflowUrl apiKey])
        | .netError m => ((502, errJson ("RAGFlow connection failed: " ++ m)),
            [sessionCall ragflowUrl apiKey])
        | .resp status sbody =>
          if 400 ≤ status then
            ((502, errJson ("RAGFlow connection failed: "
                ++ httpErrMsg status (sessionCall ragflowUrl apiKey).url)),
             [sessionCall ragflowUrl apiKey])
          else
            match sessionId sbody with
            | .error e => ((500, errJson (excMsg e)), [sessionCall ragflowUrl apiKey])
            | .ok sid => completionPhase apiKey ragflowUrl backend question sid
                [sessionCall ragflowUrl apiKey]
      else
        completionPhase apiKey ragflowUrl backend question conversation_id []

end SpineProxy

def testBackend : Call → CallOutcome :=
  fun c =>
    if c.timeoutSecs = 10 then
      .resp 200 (.obj [("data", .obj [("id", .str "sess1")])])
    else
      .resp 200 (.obj [("answer", .str "A")])


namespace RagProxy

/-! ### Auth Gate (`require_auth`, app.py lines 42-68) and token minting
(`generate_token`, lines 81-105)

A signed token (`jwt.encode(payload, SECRET_KEY, algorithm='HS256')`) is
modelled as the claim set together with the key it was signed with; the
encoded string itself is opaque, so the `Authorization` header is modelled
as the list of its space-separated atoms, each either a well-formed token or
a plain word that `jwt.decode` rejects. -/

/-- A signed claim set: `{'user_id': ..., 'exp': ...}` signed with `sig`. -/
structure JwtTok where
  user_id : Json
  exp : Int
  sig : String

/-- One space-separated atom of an `Authorization` header value. -/
inductive Atom where
  | tok : JwtTok → Atom
  | word : String → Atom

/-- The three `except` clauses of `require_auth` (lines 58-64):
`jwt.ExpiredSignatureError`, `jwt.InvalidTokenError`, and any other
exception. -/
inductive AuthFailure where
  | expiredSignature : AuthFailure
  | invalidToken : AuthFailure
  | otherError : AuthFailure

/-- `jwt.decode(token, SECRET_KEY, algorithms=['HS256'])` at time `now`
(seconds): a non-token atom or a wrong signature raises
`InvalidTokenError`; a token whose `exp` is not in the future raises
`ExpiredSignatureError` (PyJWT expires when `exp <= now`); otherwise the
claim set is returned.  Nothing in the modelled code reaches the generic
`except Exception` clause, so `otherError` is never produced here. -/
def jwtDecode (a : Atom) (secret : String) (now : Int) : Except AuthFailure Json :=
  match a with
  | .word _ => .error .invalidToken
  | .tok t =>
    if t.sig ≠ secret then .error .invalidToken
    else if t.exp ≤ now then .error .expiredSignature
    else .ok (.obj [("user_id", t.user_id), ("exp", .num t.exp)])

/-- `auth_header.split(' ')[1] if ' ' in auth_header else auth_header`
(line 52): the second atom when the header has at least two, else the
whole header. -/
def extractToken (atoms : List Atom) : Atom :=
  if 2 ≤ atoms.length then atoms.getD 1 (.word "") else atoms.headD (.word "")

/-- The 401 response of each `except` clause of `require_auth`. -/
def authExceptResponse : AuthFailure → Nat × Json
  | .expiredSignature => (401, errJson "Token expired")
  | .invalidToken => (401, errJson "Invalid token")
  | .otherError => (401, errJson "Authentication failed")

/-- The `require_auth` decorator (lines 42-68): reject when the header is
absent, translate decode failures to 401 responses, and otherwise run the
wrapped handler. -/
def require_auth (secret : String) (now : Int)
    (f : Json → Except PyErr (Nat × Json))
    (header : Option (List Atom)) (body : Json) : Except PyErr (Nat × Json) :=
  match header with
  | none => .ok (401, errJson "No authorization header")
  | some atoms =>
    match jwtDecode (extractToken atoms) secret now with
    | .error e => .ok (authExceptResponse e)
    | .ok _payload => f body

/-- The minted claim set of `generate_token` (lines 95-100): expiry 30 days
(2592000 seconds) from now, signed with the configured secret. -/
def mintToken (user_id : Json) (now : Int) (secret : String) : JwtTok :=
  ⟨user_id, now + 2592000, secret⟩

/-- The `/auth/token` handler (lines 81-105).  It has no `try`, so the
`AttributeError` of `data.get(...)` on a null body escapes (the `.error`
case).  The encoded token string is opaque, so the minted token accompanies
the response as the third component and the `token` field of the 200 body
holds a placeholder for it. -/
def generate_token (secret : String) (now : Int) (body : Json) :
    Except PyErr (Nat × Json × Option JwtTok) := do
  let api_key ← pyGet body "api_key"
  let user_id ← pyGetD body "user_id" (.str "default_user")
  if !pyTruthy api_key || !pyEqStr api_key secret then
    .ok (401, errJson "Invalid API key", none)
  else
    .ok (200,
         .obj [("token", .str "signed-token"), ("expires_in", .num 2592000)],
         some (mintToken user_id now secret))

/-! ### `/rag/query` (lines 155-229) -/

/-- The enhanced query template of `rag_query` (lines 183-197); each context
field defaults to `'Not specified'` only when its key is absent. -/
def ragQueryPrompt (context query : Json) : Except PyErr String := do
  let age ← pyGetD context "patient_age" (.str "Not specified")
  let diagnosis ← pyGetD context "diagnosis" (.str "Not specified")
  let imaging ← pyGetD context "imaging_findings" (.str "Not specified")
  let history ← pyGetD context "medical_history" (.str "Not specified")
  .ok ("\nPatient Context:\n- Age: " ++ pyStr age
       ++ "\n- Diagnosis: " ++ pyStr diagnosis
       ++ "\n- Imaging Findings: " ++ pyStr imaging
       ++ "\n- Medical History: " ++ pyStr history
       ++ "\n\nQuery: " ++ pyStr query
       ++ "\n\nPlease provide evidence-based recommendations including:\n1. Treatment options (conservative vs surgical)\n2. Success rates and outcomes\n3. Risks and contraindications\n4. Evidence from clinical literature\n")

/-- The `/rag/query` handler (lines 155-229), after `require_auth`.  Its
`try` only catches `requests.RequestException` (both timeouts and transport
errors map to `(500, {"error": "Failed to query RAGFlow"})`); an
`AttributeError` inside the template or response formatting escapes.
`nowIso` is the `datetime.utcnow().isoformat()` timestamp string. -/
def rag_query (ragflowUrl nowIso : String) (backend : Call → CallOutcome)
    (data : Json) : Except PyErr (Nat × Json) := do
  let query ← pyGet data "query"
  let context ← pyGetD data "context" (.obj [])
  let kb_id ← pyGet data "knowledge_base_id"
  if !pyTruthy query then
    .ok (400, errJson "Query is required")
  else do
    let enhanced_query ← ragQueryPrompt context query
    let c : Call := ⟨ragflowUrl ++ "/query",
      .obj [("query", .str enhanced_query), ("knowledge_base_id", kb_id), ("top_k", .num 5)],
      30, ""⟩
    match backend c with
    | .timeout => .ok (500, errJson "Failed to query RAGFlow")
    | .netError _ => .ok (500, errJson "Failed to query RAGFlow")
    | .resp status rbody =>
      if status = 200 then do
        let answer ← pyGetD rbody "answer" (.str "")
        let sources ← pyGetD rbody "sources" (.arr [])
        let confidence ← pyGetD rbody "confidence" (.num 0)
        .ok (200, .obj [("answer", answer), ("sources", sources),
                        ("confidence", confidence), ("timestamp", .str nowIso)])
      else
        .ok (status, errJson "RAGFlow query failed")

/-- The `/rag/query` route: `require_auth` wrapped around `rag_query`. -/
def rag_query_route (secret : String) (now : Int) (ragflowUrl nowIso : String)
    (backend : Call → CallOutcome) (header : Option (List Atom)) (body : Json) :
    Except PyErr (Nat × Json) :=
  require_auth secret now (rag_query ragflowUrl nowIso backend) header body

/-! ### `/rag/knowledge-base` (lines 108-125) -/

/-- The `create_knowledge_base` handler (lines 108-125), after
`require_auth`: forward the body, pass the backend response through, and
translate any `RequestException` to a 500 error body. -/
def create_knowledge_base (ragflowUrl : String) (backend : Call → CallOutcome)
    (data : Json) : Except PyErr (Nat × Json) :=
  let c : Call := ⟨ragflowUrl ++ "/knowledge_base", data, 30, ""⟩
  match backend c with
  | .timeout => .ok (500, errJson "Failed to create knowledge base")
  | .netError _ => .ok (500, errJson "Failed to create knowledge base")
  | .resp status rbody => .ok (status, rbody)

/-! ### `/rag/spine-recommendation` prompt (lines 362-382) -/

/-- `format_imaging_data` (lines 408-417). -/
def format_imaging_data (imaging : Json) : Except PyErr String :=
  if !pyTruthy imaging then .ok "No imaging data available"
  else
    match imaging with
    | .obj kvs => .ok (String.intercalate "\n"
        (kvs.map (fun p => p.1 ++ ": " ++ pyStr p.2)))
    | j => .error (.attributeError
        ("\x27" ++ pyTypeName j ++ "\x27 object has no attribute \x27items\x27"))

/-- The consultation-request template of `spine_surgery_recommendation`
(lines 363-382), evaluated in the order of the f-string fields. -/
def spinePrompt (patient_data : Json) : Except PyErr String := do
  let age ← pyGetD patient_data "age" (.str "Not specified")
  let diagnosis ← pyGetD patient_data "diagnosis" (.str "Not specified")
  let symptoms ← pyGetD patient_data "symptoms" (.arr [.str "Not specified"])
  let symptomsStr ← pyJoin ", " symptoms
  let medical_history ← pyGetD patient_data "medical_history" (.obj [])
  let historySummary ← pyGetD medical_history "summary" (.str "Not specified")
  let imaging ← pyGetD patient_data "imaging" (.obj [])
  let imagingStr ← format_imaging_data imaging
  .ok ("\nSpine Surgery Consultation Request:\n\nPatient Profile:\n- Age: " ++ pyStr age
       ++ "\n- Primary Diagnosis: " ++ pyStr diagnosis
       ++ "\n- Symptoms: " ++ symptomsStr
       ++ "\n- Relevant Medical History: " ++ pyStr historySummary
       ++ "\n\nImaging Findings:\n" ++ imagingStr
       ++ "\n\nPlease provide:\n1. Conservative treatment options with expected outcomes\n2. Surgical treatment options with evidence-based success rates\n3. Risk-benefit analysis for each approach\n4. Patient selection criteria from clinical guidelines\n5. Recovery timelines and rehabilitation considerations\n6. Relevant clinical studies and meta-analyses\n")

/-- A record carrying nothing but its `resourceType`: every nested key the
extractor reads is missing. -/
def bareRecord (t : String) : Json :=
  .obj [("resourceType", .str t)]

/-- Modelled from the spec (section 4.1), as amended: the number of lines a
single record contributes to the extractor output.  Two for `Patient`, one
for `Condition` and `Procedure`, one for `Observation` only when its
`valueQuantity` is truthy, zero otherwise. -/
def specLineCount (r : Json) : Nat :=
  let rt := objGetTotal r "resourceType" (.str "Unknown")
  if pyEqStr rt "Patient" then 2
  else if pyEqStr rt "Condition" then 1
  else if pyEqStr rt "Observation" then
    (if pyTruthy (objGetTotal r "valueQuantity" (.obj [])) then 1 else 0)
  else if pyEqStr rt "Procedure" then 1
  else 0

end RagProxy

def goodRagBackend : Call → CallOutcome :=
  fun _ => .resp 200 (.obj [("answer", .str "A"), ("sources", .arr [.str "s1"]),
                            ("confidence", .num 1)])

/-- A trivial wrapped handler, used to exercise `require_auth` alone. -/
def nullHandler : Json → Except PyErr (Nat × Json) :=
  fun _ => .ok (200, .null)

/-- The rendering of one defaulted context field as interpolated by the
prompt templates: `str(context.get(k, 'Not specified'))` on an object. -/
def fieldRender (ctx : List (String × Json)) (k : String) : String :=
  pyStr (objGetTotal (.obj ctx) k (.str "Not specified"))

/-- Modelled from the spec (section 4.2, template 1), as amended: the
`/rag/query` prompt text as a function of the per-field renderings, for
comparison with the prompt the handler builds. -/
def specRagPromptText (ctx : List (String × Json)) (q : Json) : String :=
  "\nPatient Context:\n- Age: " ++ fieldRender ctx "patient_age"
  ++ "\n- Diagnosis: " ++ fieldRender ctx "diagnosis"
  ++ "\n- Imaging Findings: " ++ fieldRender ctx "imaging_findings"
  ++ "\n- Medical History: " ++ fieldRender ctx "medical_history"
  ++ "\n\nQuery: " ++ pyStr q
  ++ "\n\nPlease provide evidence-based recommendations including:\n1. Treatment options (conservative vs surgical)\n2. Success rates and outcomes\n3. Risks and contraindications\n4. Evidence from clinical literature\n"

/-- Modelled from the spec (section 4.2, template 3), as amended: the
`/rag/spine-recommendation` prompt text as a function of the per-field
renderings — the joined symptoms, the medical-history summary value and the
imaging block are passed through as parameters. -/
def specSpinePromptText (pd : List (String × Json)) (symStr : String)
    (mh : Json) (imStr : String) : String :=
  "\nSpine Surgery Consultation Request:\n\nPatient Profile:\n- Age: " ++ fieldRender pd "age"
  ++ "\n- Primary Diagnosis: " ++ fieldRender pd "diagnosis"
  ++ "\n- Symptoms: " ++ symStr
  ++ "\n- Relevant Medical History: " ++ pyStr mh
  ++ "\n\nImaging Findings:\n" ++ imStr
  ++ "\n\nPlease provide:\n1. Conservative treatment options with expected outcomes\n2. Surgical treatment options with evidence-based success rates\n3. Risk-benefit analysis for each approach\n4. Patient selection criteria from clinical guidelines\n5. Recovery timelines and rehabilitation considerations\n6. Relevant clinical studies and meta-analyses\n"

/-! ### Shared lemmas -/

theorem exceptBind_ok_iff {ε α β : Type} {x : Except ε α} {f : α → Except ε β} {b : β} :
    (x >>= f) = .ok b ↔ ∃ a, x = .ok a ∧ f a = .ok b := by
  cases x <;> simp [Bind.bind, Except.bind]

@[simp] theorem exceptBind_ok {ε α β : Type} (a : α) (f : α → Except ε β) :
    (Except.ok a >>= f : Except ε β) = f a := rfl

@[simp] theorem exceptBind_error {ε α β : Type} (e : ε) (f : α → Except ε β) :
    ((Except.error e : Except ε α) >>= f : Except ε β) = Except.error e := rfl

theorem pyGetD_obj (kvs : List (String × Json)) (k : String) (d : Json) :
    pyGetD (.obj kvs) k d = .ok (objGetTotal (.obj kvs) k d) := rfl

namespace RagProxy


theorem recordParts_bare (t : String) : ∃ ps, recordParts (bareRecord t) = .ok ps := by
  have h : recordParts (bareRecord t) =
      (if t == "Patient" then patientParts (bareRecord t)
       else if t == "Condition" then conditionParts (bareRecord t)
       else if t == "Observation" then observationParts (bareRecord t)
       else if t == "Procedure" then procedureParts (bareRecord t)
       else .ok []) := rfl
  rw [h]
  by_cases h1 : t == "Patient"
  · exact ⟨_, by simp [h1]; rfl⟩
  · by_cases h2 : t == "Condition"
    · exact ⟨_, by simp [h1, h2]; rfl⟩
    · by_cases h3 : t == "Observation"
      · exact ⟨_, by simp [h1, h2, h3]; rfl⟩
      · by_cases h4 : t == "Procedure"
        · exact ⟨_, by simp [h1, h2, h3, h4]; rfl⟩
        · exact ⟨[], by simp [h1, h2, h3, h4]⟩

theorem allParts_bare (ts : List String) :
    ∃ ps, allParts (ts.map bareRecord) = .ok ps := by
  induction ts with
  | nil => exact ⟨[], rfl⟩
  | cons t ts ih =>
    obtain ⟨ps, hps⟩ := ih
    obtain ⟨qs, hqs⟩ := recordParts_bare t
    refine ⟨qs ++ ps, ?_⟩
    simp [allParts, hqs, hps]

end RagProxy

/-- Claim C1 is false on the code: defaults in `extract_patient_context`
apply only to absent keys.  A `Patient` record whose `name` key is present
but an empty list, and a `Condition` record whose `coding` key is present
but an empty list (even alongside a usable `text`), both make the extractor
raise `IndexError` instead of resolving to a default. -/
theorem c1_counterexample :
    RagProxy.extract_patient_context
        [.obj [("resourceType", .str "Patient"), ("name", .arr [])]]
      = .error (.indexError "list index out of range")
    ∧ RagProxy.extract_patient_context
        [.obj [("resourceType", .str "Condition"),
               ("code", .obj [("text", .str "Stenosis"), ("coding", .arr [])])]]
      = .error (.indexError "list index out of range") :=
  ⟨rfl, rfl⟩

/-- Claim C1 (amended): `extract_patient_context` returns normally when the
nested keys are absent — for every list of records of any `resourceType`
carrying no key but `resourceType`, extraction succeeds, and missing
`name`/`given`/`family`/`code`/`coding` resolve to the empty string or the
documented default; a key that is present but holds an empty list
raises `IndexError` instead (see the counterexample). -/
theorem c1_amended :
    (∀ ts : List String,
      (RagProxy.extract_patient_context (ts.map RagProxy.bareRecord)).isOk = true)
    ∧ RagProxy.extract_patient_context [RagProxy.bareRecord "Patient"]
        = .ok ("Patient:  " ++ "\n" ++ "Gender: unknown, Birth Date: unknown")
    ∧ RagProxy.extract_patient_context [RagProxy.bareRecord "Condition"]
        = .ok "Condition: Unknown condition"
    ∧ RagProxy.extract_patient_context [RagProxy.bareRecord "Observation"]
        = .ok "No patient context available"
    ∧ RagProxy.extract_patient_context [RagProxy.bareRecord "Procedure"]
        = .ok "Procedure: Unknown procedure"
    ∧ RagProxy.extract_patient_context
        [.obj [("resourceType", .str "Patient"), ("name", .arr [.obj []])]]
        = .ok ("Patient:  " ++ "\n" ++ "Gender: unknown, Birth Date: unknown") := by
  refine ⟨?_, rfl, rfl, rfl, rfl, rfl⟩
  intro ts
  obtain ⟨ps, hps⟩ := RagProxy.allParts_bare ts
  simp [RagProxy.extract_patient_context, hps, Except.isOk, Except.toBool]

namespace RagProxy


theorem patientParts_len {r : Json} {ps : List String}
    (h : patientParts r = .ok ps) : ps.length = 2 := by
  unfold patientParts at h
  rw [exceptBind_ok_iff] at h; obtain ⟨name0, h1, h⟩ := h
  rw [exceptBind_ok_iff] at h; obtain ⟨name, h2, h⟩ := h
  rw [exceptBind_ok_iff] at h; obtain ⟨gender, h3, h⟩ := h
  rw [exceptBind_ok_iff] at h; obtain ⟨birth, h4, h⟩ := h
  rw [exceptBind_ok_iff] at h; obtain ⟨given, h5, h⟩ := h
  rw [exceptBind_ok_iff] at h; obtain ⟨given0, h6, h⟩ := h
  rw [exceptBind_ok_iff] at h; obtain ⟨family, h7, h⟩ := h
  cases h
  rfl

theorem conditionParts_len {r : Json} {ps : List String}
    (h : conditionParts r = .ok ps) : ps.length = 1 := by
  unfold conditionParts at h
  rw [exceptBind_ok_iff] at h; obtain ⟨text, h1, h⟩ := h
  cases h
  rfl

theorem procedureParts_len {r : Json} {ps : List String}
    (h : procedureParts r = .ok ps) : ps.length = 1 := by
  unfold procedureParts at h
  rw [exceptBind_ok_iff] at h; obtain ⟨text, h1, h⟩ := h
  cases h
  rfl

theorem observationParts_len {kvs : List (String × Json)} {ps : List String}
    (h : observationParts (.obj kvs) = .ok ps) :
    ps.length = if pyTruthy (objGetTotal (.obj kvs) "valueQuantity" (.obj [])) then 1 else 0 := by
  unfold observationParts at h
  rw [exceptBind_ok_iff] at h; obtain ⟨text, h1, h⟩ := h
  rw [exceptBind_ok_iff] at h; obtain ⟨value, h2, h⟩ := h
  rw [pyGetD_obj] at h2
  cases h2
  by_cases hv : pyTruthy (objGetTotal (.obj kvs) "valueQuantity" (.obj []))
  · rw [if_pos hv]
    rw [if_pos hv] at h
    rw [exceptBind_ok_iff] at h; obtain ⟨v, h3, h⟩ := h
    rw [exceptBind_ok_iff] at h; obtain ⟨u, h4, h⟩ := h
    cases h
    rfl
  · rw [if_neg hv]
    rw [if_neg hv] at h
    cases h
    rfl

theorem recordParts_len {r : Json} {ps : List String}
    (h : recordParts r = .ok ps) : ps.length = specLineCount r := by
  unfold recordParts at h
  rw [exceptBind_ok_iff] at h; obtain ⟨rt, hrt, h⟩ := h
  cases r with
  | obj kvs =>
    rw [pyGetD_obj] at hrt
    cases hrt
    unfold specLineCount
    by_cases h1 : pyEqStr (objGetTotal (.obj kvs) "resourceType" (.str "Unknown")) "Patient"
    · rw [if_pos h1] at h ⊢
      exact patientParts_len h
    · rw [if_neg h1] at h ⊢
      by_cases h2 : pyEqStr (objGetTotal (.obj kvs) "resourceType" (.str "Unknown")) "Condition"
      · rw [if_pos h2] at h ⊢
        exact conditionParts_len h
      · rw [if_neg h2] at h ⊢
        by_cases h3 : pyEqStr (objGetTotal (.obj kvs) "resourceType" (.str "Unknown")) "Observation"
        · rw [if_pos h3] at h ⊢
          exact observationParts_len h
        · rw [if_neg h3] at h ⊢
          by_cases h4 : pyEqStr (objGetTotal (.obj kvs) "resourceType" (.str "Unknown")) "Procedure"
          · rw [if_pos h4] at h ⊢
            exact procedureParts_len h
          · rw [if_neg h4] at h ⊢
            cases h
            rfl
  | null => exact absurd hrt (by simp [pyGetD])
  | bool b => exact absurd hrt (by simp [pyGetD])
  | num n => exact absurd hrt (by simp [pyGetD])
  | str s => exact absurd hrt (by simp [pyGetD])
  | arr xs => exact absurd hrt (by simp [pyGetD])

theorem allParts_len : ∀ {rs : List Json} {parts : List String},
    allParts rs = .ok parts → parts.length = (rs.map specLineCount).sum := by
  intro rs
  induction rs with
  | nil =>
    intro parts h
    cases h
    rfl
  | cons r rs ih =>
    intro parts h
    unfold allParts at h
    rw [exceptBind_ok_iff] at h; obtain ⟨ps, hps, h⟩ := h
    rw [exceptBind_ok_iff] at h; obtain ⟨rest, hrest, h⟩ := h
    cases h
    simp [recordParts_len hps, ih hrest]

end RagProxy

/-- Claim C8 is false on the code: an `Observation` record (a recognized
`resourceType`) without a `valueQuantity` contributes no line at all, so a
non-empty two-record list produces a single line rather than one line per
recognized record. -/
theorem c8_counterexample :
    RagProxy.extract_patient_context
        [.obj [("resourceType", .str "Observation")],
         .obj [("resourceType", .str "Condition")]]
      = .ok "Condition: Unknown condition"
    ∧ (linesOf "Condition: Unknown condition").length = 1 :=
  ⟨rfl, by decide⟩

/-- Claim C8 (amended): the empty list yields exactly the sentinel
`"No patient context available"`; otherwise, when extraction returns
normally, the output is the collected per-record lines joined by newlines
(or the sentinel again when no line was collected), and the number of lines
is two per `Patient`, one per `Condition` and `Procedure`, one per
`Observation` with a truthy `valueQuantity` and zero without, and zero per
unrecognized `resourceType`. -/
theorem c8_amended (rs : List Json) (parts : List String)
    (h : RagProxy.allParts rs = .ok parts) :
    RagProxy.extract_patient_context [] = .ok "No patient context available"
    ∧ RagProxy.extract_patient_context rs
        = .ok (if parts.isEmpty then "No patient context available"
               else String.intercalate "\n" parts)
    ∧ parts.length = (rs.map RagProxy.specLineCount).sum := by
  refine ⟨rfl, ?_, RagProxy.allParts_len h⟩
  simp [RagProxy.extract_patient_context, h]

/-- Witness for C8 (amended) at a concrete input: a Patient record followed
by a bare Observation and a Condition yields three lines (two from the
Patient, none from the Observation, one from the Condition). -/
theorem c8_witness :
    RagProxy.extract_patient_context
        [RagProxy.bareRecord "Patient", RagProxy.bareRecord "Observation",
         RagProxy.bareRecord "Condition"]
      = .ok (String.intercalate "\n"
          ["Patient:  ", "Gender: unknown, Birth Date: unknown", "Condition: Unknown condition"])
    ∧ (3 : Nat) = ([RagProxy.bareRecord "Patient", RagProxy.bareRecord "Observation",
         RagProxy.bareRecord "Condition"].map RagProxy.specLineCount).sum := by
  have h := c8_amended
    [RagProxy.bareRecord "Patient", RagProxy.bareRecord "Observation",
     RagProxy.bareRecord "Condition"]
    ["Patient:  ", "Gender: unknown, Birth Date: unknown", "Condition: Unknown condition"]
    rfl
  exact ⟨by rw [h.2.1]; rfl, h.2.2⟩

theorem not_patient_two (c₁ c₂ : Char) (cs : List Char)
    (h : ('P' == c₁) = false ∨ ('a' == c₂) = false) :
    List.isPrefixOf "Patient:".data (c₁ :: c₂ :: cs) = false := by
  show List.isPrefixOf ('P' :: 'a' :: "tient:".data) (c₁ :: c₂ :: cs) = false
  rcases h with h | h <;> simp [List.isPrefixOf, h]

theorem strBegins_patient_cond (t : String) :
    strBegins "Patient:" ("Condition: " ++ t) = false := by
  unfold strBegins
  exact not_patient_two 'C' 'o' _ (Or.inl (by decide))

theorem strBegins_patient_gender (a b : String) :
    strBegins "Patient:" ("Gender: " ++ a ++ ", Birth Date: " ++ b) = false := by
  unfold strBegins
  exact not_patient_two 'G' 'e' _ (Or.inl (by decide))

theorem strBegins_patient_obs (a b c : String) :
    strBegins "Patient:" ("Observation: " ++ a ++ " = " ++ b ++ " " ++ c) = false := by
  unfold strBegins
  exact not_patient_two 'O' 'b' _ (Or.inl (by decide))

theorem strBegins_patient_proc (t : String) :
    strBegins "Patient:" ("Procedure: " ++ t) = false := by
  unfold strBegins
  exact not_patient_two 'P' 'r' _ (Or.inr (by decide))

namespace RagProxy

theorem conditionParts_no_patient {r : Json} {ps : List String}
    (h : conditionParts r = .ok ps) :
    ∀ p ∈ ps, strBegins "Patient:" p = false := by
  unfold conditionParts at h
  rw [exceptBind_ok_iff] at h; obtain ⟨text, h1, h⟩ := h
  cases h
  intro p hp
  rw [List.mem_singleton] at hp
  subst hp
  exact strBegins_patient_cond (pyStr text)

theorem procedureParts_no_patient {r : Json} {ps : List String}
    (h : procedureParts r = .ok ps) :
    ∀ p ∈ ps, strBegins "Patient:" p = false := by
  unfold procedureParts at h
  rw [exceptBind_ok_iff] at h; obtain ⟨text, h1, h⟩ := h
  cases h
  intro p hp
  rw [List.mem_singleton] at hp
  subst hp
  exact strBegins_patient_proc (pyStr text)

theorem observationParts_no_patient {r : Json} {ps : List String}
    (h : observationParts r = .ok ps) :
    ∀ p ∈ ps, strBegins "Patient:" p = false := by
  unfold observationParts at h
  rw [exceptBind_ok_iff] at h; obtain ⟨text, h1, h⟩ := h
  rw [exceptBind_ok_iff] at h; obtain ⟨value, h2, h⟩ := h
  by_cases hv : pyTruthy value
  · rw [if_pos hv] at h
    rw [exceptBind_ok_iff] at h; obtain ⟨v, h3, h⟩ := h
    rw [exceptBind_ok_iff] at h; obtain ⟨u, h4, h⟩ := h
    cases h
    intro p hp
    rw [List.mem_singleton] at hp
    subst hp
    exact strBegins_patient_obs (pyStr text) (pyStr v) (pyStr u)
  · rw [if_neg hv] at h
    cases h
    intro p hp
    cases hp

theorem recordParts_no_patient {r : Json} {ps : List String}
    (h : recordParts r = .ok ps)
    (hpat : pyEqStr (objGetTotal r "resourceType" (.str "Unknown")) "Patient" = false) :
    ∀ p ∈ ps, strBegins "Patient:" p = false := by
  unfold recordParts at h
  rw [exceptBind_ok_iff] at h; obtain ⟨rt, hrt, h⟩ := h
  cases r with
  | obj kvs =>
    rw [pyGetD_obj] at hrt
    cases hrt
    rw [if_neg (by simp [hpat])] at h
    by_cases h2 : pyEqStr (objGetTotal (.obj kvs) "resourceType" (.str "Unknown")) "Condition"
    · rw [if_pos h2] at h
      exact conditionParts_no_patient h
    · rw [if_neg h2] at h
      by_cases h3 : pyEqStr (objGetTotal (.obj kvs) "resourceType" (.str "Unknown")) "Observation"
      · rw [if_pos h3] at h
        exact observationParts_no_patient h
      · rw [if_neg h3] at h
        by_cases h4 : pyEqStr (objGetTotal (.obj kvs) "resourceType" (.str "Unknown")) "Procedure"
        · rw [if_pos h4] at h
          exact procedureParts_no_patient h
        · rw [if_neg h4] at h
          cases h
          intro p hp
          cases hp
  | null => exact absurd hrt (by simp [pyGetD])
  | bool b => exact absurd hrt (by simp [pyGetD])
  | num n => exact absurd hrt (by simp [pyGetD])
  | str s => exact absurd hrt (by simp [pyGetD])
  | arr xs => exact absurd hrt (by simp [pyGetD])

theorem allParts_no_patient : ∀ {rs : List Json} {parts : List String},
    allParts rs = .ok parts →
    (∀ r ∈ rs, pyEqStr (objGetTotal r "resourceType" (.str "Unknown")) "Patient" = false) →
    ∀ p ∈ parts, strBegins "Patient:" p = false := by
  intro rs
  induction rs with
  | nil =>
    intro parts h _
    cases h
    intro p hp
    cases hp
  | cons r rs ih =>
    intro parts h hpat
    unfold allParts at h
    rw [exceptBind_ok_iff] at h; obtain ⟨ps, hps, h⟩ := h
    rw [exceptBind_ok_iff] at h; obtain ⟨rest, hrest, h⟩ := h
    cases h
    intro p hp
    rw [List.mem_append] at hp
    rcases hp with hp | hp
    · exact recordParts_no_patient hps (hpat r (List.mem_cons_self r rs)) p hp
    · exact ih hrest (fun x hx => hpat x (List.mem_cons_of_mem r hx)) p hp

end RagProxy

/-- Claim C9 is false on the code: a record that is not a `Patient` can
still put a line beginning with `"Patient:"` into the output, because a
newline embedded in a text field splits into a forged line when the parts
are joined.  Here a single `Condition` record does so. -/
theorem c9_counterexample :
    pyEqStr (objGetTotal
        (.obj [("resourceType", .str "Condition"),
               ("code", .obj [("text", .str "x\nPatient: evil")])])
        "resourceType" (.str "Unknown")) "Patient" = false
    ∧ RagProxy.extract_patient_context
        [.obj [("resourceType", .str "Condition"),
               ("code", .obj [("text", .str "x\nPatient: evil")])]]
      = .ok "Condition: x\nPatient: evil"
    ∧ (linesOf "Condition: x\nPatient: evil").any
        (fun l => strBegins "Patient:" l) = true :=
  ⟨rfl, rfl, by decide⟩

/-- Claim C9 (amended): for every list of records containing no record of
`resourceType` `"Patient"`, no entry of the parts list collected by the
extractor begins with `"Patient:"` (a newline embedded inside a record text
field can still forge such a line in the joined output, as the
counterexample shows). -/
theorem c9_amended (rs : List Json) (parts : List String)
    (h : RagProxy.allParts rs = .ok parts)
    (hpat : ∀ r ∈ rs, pyEqStr (objGetTotal r "resourceType" (.str "Unknown")) "Patient" = false) :
    ∀ p ∈ parts, strBegins "Patient:" p = false :=
  RagProxy.allParts_no_patient h hpat

/-- Witness for C9 (amended) at a concrete input: a single bare `Condition`
record, whose one collected line does not begin with `"Patient:"`. -/
theorem c9_witness :
    strBegins "Patient:" "Condition: Unknown condition" = false :=
  c9_amended [RagProxy.bareRecord "Condition"] ["Condition: Unknown condition"]
    rfl (by decide) "Condition: Unknown condition" (by decide)

namespace SpineProxy

theorem completionPhase_trace (apiKey ragflowUrl : String) (backend : Call → CallOutcome)
    (question session_id : Json) (trace : List Call) :
    (completionPhase apiKey ragflowUrl backend question session_id trace).2
      = trace ++ [completionCall ragflowUrl apiKey question session_id] := by
  unfold completionPhase
  cases backend (completionCall ragflowUrl apiKey question session_id) with
  | timeout => rfl
  | netError m => rfl
  | resp status body =>
    by_cases h : 400 ≤ status
    · simp only [if_pos h]
    · simp only [if_neg h]

end SpineProxy

/-- Claim C5 is false on the code: a request whose body does contain a
`conversation_id` key, holding the falsy value `""`, still triggers two
outbound calls (session create, then completion), because the handler tests
truthiness and not presence. -/
theorem c5_counterexample :
    ([("question", Json.str "q"), ("conversation_id", Json.str "")].find?
        (fun p => p.1 == "conversation_id")).isSome = true
    ∧ (SpineProxy.query "k" "u" testBackend
        (.obj [("question", .str "q"), ("conversation_id", .str "")])).2
      = [SpineProxy.sessionCall "u" "k",
         SpineProxy.completionCall "u" "k" (.str "q") (.str "sess1")] :=
  ⟨rfl, rfl⟩

/-- Claim C5 (amended): for every `POST /query` body with a truthy
`question` and a configured API key: when the body lacks a truthy
`conversation_id` and the session-creation call succeeds (2xx/3xx status
and a readable body), the handler issues exactly two outbound calls, the
session-creation POST first and then the completion POST carrying the
created session id; when the body holds a truthy `conversation_id`, it
issues exactly the one completion call.  (On a failed session call only
that single call is issued.) -/
theorem c5_amended (kvs : List (String × Json)) (apiKey ragflowUrl : String)
    (backend : Call → CallOutcome) (sStatus : Nat) (sbody sid : Json)
    (hkey : apiKey ≠ "")
    (hq : pyTruthy (objGetTotal (.obj kvs) "question" .null) = true) :
    (pyTruthy (objGetTotal (.obj kvs) "conversation_id" .null) = false →
      backend (SpineProxy.sessionCall ragflowUrl apiKey) = .resp sStatus sbody →
      sStatus < 400 →
      SpineProxy.sessionId sbody = .ok sid →
      (SpineProxy.query apiKey ragflowUrl backend (.obj kvs)).2
        = [SpineProxy.sessionCall ragflowUrl apiKey,
           SpineProxy.completionCall ragflowUrl apiKey
             (objGetTotal (.obj kvs) "question" .null) sid])
    ∧ (pyTruthy (objGetTotal (.obj kvs) "conversation_id" .null) = true →
      (SpineProxy.query apiKey ragflowUrl backend (.obj kvs)).2
        = [SpineProxy.completionCall ragflowUrl apiKey
             (objGetTotal (.obj kvs) "question" .null)
             (objGetTotal (.obj kvs) "conversation_id" .null)]) := by
  constructor
  · intro hconv hresp hlt hsid
    have hlt' : ¬ 400 ≤ sStatus := by omega
    simp [SpineProxy.query, pyGet, pyGetD_obj, hq, hconv, hresp, hsid, hkey, hlt',
      SpineProxy.completionPhase_trace]
  · intro hconv
    simp [SpineProxy.query, pyGet, pyGetD_obj, hq, hconv, hkey,
      SpineProxy.completionPhase_trace]

/-- Witness for C5 (amended) at concrete inputs: without `conversation_id`
the trace is the session call then the completion call; with
`conversation_id: "c7"` it is the completion call alone. -/
theorem c5_witness :
    (SpineProxy.query "k" "u" testBackend (.obj [("question", .str "q")])).2
      = [SpineProxy.sessionCall "u" "k",
         SpineProxy.completionCall "u" "k" (.str "q") (.str "sess1")]
    ∧ (SpineProxy.query "k" "u" testBackend
        (.obj [("question", .str "q"), ("conversation_id", .str "c7")])).2
      = [SpineProxy.completionCall "u" "k" (.str "q") (.str "c7")] := by
  constructor
  · exact (c5_amended [("question", .str "q")] "k" "u" testBackend 200
      (.obj [("data", .obj [("id", .str "sess1")])]) (.str "sess1")
      (by decide) (by decide)).1 (by decide) rfl (by omega) rfl
  · exact (c5_amended [("question", .str "q"), ("conversation_id", .str "c7")]
      "k" "u" testBackend 200 .null .null (by decide) (by decide)).2 (by decide)

/-- Claim C6: a `/query` body (a JSON object) without a truthy `question`
gets `(400, {"error": "question is required"})` with no outbound call, even
when the API key is also unconfigured (the missing-question check comes
first); a body with a truthy `question` while the key is unconfigured gets
`(500, {"error": "RAGFlow API key not configured"})`, also with no
outbound call. -/
theorem c6_precedence (kvs : List (String × Json)) (apiKey ragflowUrl : String)
    (backend : Call → CallOutcome) :
    (pyTruthy (objGetTotal (.obj kvs) "question" .null) = false →
      SpineProxy.query apiKey ragflowUrl backend (.obj kvs)
        = ((400, errJson "question is required"), []))
    ∧ (pyTruthy (objGetTotal (.obj kvs) "question" .null) = true → apiKey = "" →
      SpineProxy.query apiKey ragflowUrl backend (.obj kvs)
        = ((500, errJson "RAGFlow API key not configured"), [])) := by
  constructor
  · intro hq
    simp [SpineProxy.query, pyGet, pyGetD_obj, hq]
  · intro hq hkey
    simp [SpineProxy.query, pyGet, pyGetD_obj, hq, hkey]

/-- Witness for C6 at concrete inputs: an empty body (no `question`, key
also unconfigured) yields the 400, and a body with a question while the
key is `""` yields the 500. -/
theorem c6_witness :
    SpineProxy.query "" "u" testBackend (.obj [])
      = ((400, errJson "question is required"), [])
    ∧ SpineProxy.query "" "u" testBackend (.obj [("question", .str "q")])
      = ((500, errJson "RAGFlow API key not configured"), []) :=
  ⟨(c6_precedence [] "" "u" testBackend).1 (by decide),
   (c6_precedence [("question", .str "q")] "" "u" testBackend).2 (by decide) rfl⟩


/-- Claim C10: on the protected `/rag/query` route, authentication runs
before body parsing and required-field validation.  With no `Authorization`
header the route answers 401 for every body whatsoever — in particular for
a body that also lacks `query` — and never enters the handler, while the
bare handler on that same body would answer 400. -/
theorem c10_auth_first (secret : String) (now : Int) (ragflowUrl nowIso : String)
    (backend : Call → CallOutcome) (body : Json) :
    RagProxy.rag_query_route secret now ragflowUrl nowIso backend none body
      = .ok (401, errJson "No authorization header")
    ∧ RagProxy.rag_query ragflowUrl nowIso backend (.obj [])
      = .ok (400, errJson "Query is required") :=
  ⟨rfl, rfl⟩

/-- Claim C4: the four authentication failure modes each yield a 401 with a
JSON `{"error": ...}` body — absent header, invalid signature, expired
token, and (via the translation of the generic `except` clause) any other
failure — and the three messages `"Token expired"`, `"Invalid token"` and
`"No authorization header"` are pairwise distinct. -/
theorem c4_distinct_failures (secret : String) (now : Int) (t : RagProxy.JwtTok)
    (f : Json → Except PyErr (Nat × Json)) (body : Json) :
    RagProxy.require_auth secret now f none body
      = .ok (401, errJson "No authorization header")
    ∧ (t.sig ≠ secret →
        RagProxy.require_auth secret now f (some [.word "Bearer", .tok t]) body
          = .ok (401, errJson "Invalid token"))
    ∧ (t.sig = secret → t.exp ≤ now →
        RagProxy.require_auth secret now f (some [.word "Bearer", .tok t]) body
          = .ok (401, errJson "Token expired"))
    ∧ (∀ e, (RagProxy.authExceptResponse e).1 = 401
        ∧ isErrShaped (RagProxy.authExceptResponse e).2 = true)
    ∧ ("Token expired" ≠ "Invalid token" ∧ "Token expired" ≠ "No authorization header"
        ∧ "Invalid token" ≠ "No authorization header") := by
  refine ⟨rfl, ?_, ?_, ?_, by decide, by decide, by decide⟩
  · intro h
    have he : RagProxy.extractToken [.word "Bearer", .tok t] = .tok t := rfl
    simp [RagProxy.require_auth, he, RagProxy.jwtDecode, h, RagProxy.authExceptResponse]
  · intro hsig hexp
    have he : RagProxy.extractToken [.word "Bearer", .tok t] = .tok t := rfl
    simp [RagProxy.require_auth, he, RagProxy.jwtDecode, hsig, hexp,
      RagProxy.authExceptResponse]
  · intro e
    cases e <;> exact ⟨rfl, rfl⟩

/-- Witness for C4 at concrete inputs: a token signed with the wrong key is
rejected as invalid, and a correctly signed token past its expiry is
rejected as expired. -/
theorem c4_witness :
    RagProxy.require_auth "sec" 5 nullHandler
        (some [.word "Bearer", .tok ⟨.str "u", 9, "bad"⟩]) (.obj [])
      = .ok (401, errJson "Invalid token")
    ∧ RagProxy.require_auth "sec" 9 nullHandler
        (some [.word "Bearer", .tok ⟨.str "u", 9, "sec"⟩]) (.obj [])
      = .ok (401, errJson "Token expired") :=
  ⟨(c4_distinct_failures "sec" 5 ⟨.str "u", 9, "bad"⟩ nullHandler (.obj [])).2.1 (by decide),
   (c4_distinct_failures "sec" 9 ⟨.str "u", 9, "sec"⟩ nullHandler (.obj [])).2.2.1 rfl (by decide)⟩

/-- Claim C3: round-trip.  Minting a token through `/auth/token` with
`api_key` equal to the configured secret yields a 200 with a token expiring
30 days (2592000 seconds) later; presenting that token as
`Bearer <token>` to the protected `/rag/query` route with an otherwise
valid request succeeds with 200 at any time strictly within the window and
is rejected 401 `"Token expired"` at any time from expiry on. -/
theorem c3_roundtrip (secret : String) (hsecret : secret ≠ "") (u : Json)
    (t0 t : Int) (ragflowUrl nowIso : String)
    (hwin1 : t0 ≤ t) (hwin2 : t < t0 + 2592000) :
    RagProxy.generate_token secret t0 (.obj [("api_key", .str secret), ("user_id", u)])
      = .ok (200, .obj [("token", .str "signed-token"), ("expires_in", .num 2592000)],
             some (RagProxy.mintToken u t0 secret))
    ∧ RagProxy.rag_query_route secret t ragflowUrl nowIso goodRagBackend
        (some [.word "Bearer", .tok (RagProxy.mintToken u t0 secret)])
        (.obj [("query", .str "treatment options")])
      = .ok (200, .obj [("answer", .str "A"), ("sources", .arr [.str "s1"]),
                        ("confidence", .num 1), ("timestamp", .str nowIso)])
    ∧ (∀ t2 : Int, t0 + 2592000 ≤ t2 →
        RagProxy.rag_query_route secret t2 ragflowUrl nowIso goodRagBackend
          (some [.word "Bearer", .tok (RagProxy.mintToken u t0 secret)])
          (.obj [("query", .str "treatment options")])
        = .ok (401, errJson "Token expired")) := by
  refine ⟨?_, ?_, ?_⟩
  · have h1 : pyGet (.obj [("api_key", .str secret), ("user_id", u)]) "api_key"
        = .ok (.str secret) := rfl
    have h2 : pyGetD (.obj [("api_key", .str secret), ("user_id", u)]) "user_id"
        (.str "default_user") = .ok u := rfl
    have h3 : pyTruthy (.str secret) = true := by
      simp [pyTruthy, bne_iff_ne, hsecret]
    have h4 : pyEqStr (.str secret) secret = true := by simp [pyEqStr]
    simp [RagProxy.generate_token, h1, h2, h3, h4]
  · have hexp : ¬ (t0 + 2592000 ≤ t) := by omega
    have he : RagProxy.extractToken [.word "Bearer", .tok (RagProxy.mintToken u t0 secret)]
        = .tok (RagProxy.mintToken u t0 secret) := rfl
    have hdec : RagProxy.jwtDecode (.tok (RagProxy.mintToken u t0 secret)) secret t
        = .ok (.obj [("user_id", u), ("exp", .num (t0 + 2592000))]) := by
      simp [RagProxy.jwtDecode, RagProxy.mintToken, hexp]
    simp only [RagProxy.rag_query_route, RagProxy.require_auth, he, hdec]
    rfl
  · intro t2 ht2
    have he : RagProxy.extractToken [.word "Bearer", .tok (RagProxy.mintToken u t0 secret)]
        = .tok (RagProxy.mintToken u t0 secret) := rfl
    have hdec : RagProxy.jwtDecode (.tok (RagProxy.mintToken u t0 secret)) secret t2
        = .error .expiredSignature := by
      simp [RagProxy.jwtDecode, RagProxy.mintToken, ht2]
    simp only [RagProxy.rag_query_route, RagProxy.require_auth, he, hdec]
    rfl

/-- Witness for C3 at concrete inputs: secret `"sec"`, subject `"alice"`,
token minted at time 0; the route succeeds at time 100 and is rejected as
expired at time 2592000. -/
theorem c3_witness :
    RagProxy.generate_token "sec" 0 (.obj [("api_key", .str "sec"), ("user_id", .str "alice")])
      = .ok (200, .obj [("token", .str "signed-token"), ("expires_in", .num 2592000)],
             some (RagProxy.mintToken (.str "alice") 0 "sec"))
    ∧ RagProxy.rag_query_route "sec" 100 "u" "ts" goodRagBackend
        (some [.word "Bearer", .tok (RagProxy.mintToken (.str "alice") 0 "sec")])
        (.obj [("query", .str "treatment options")])
      = .ok (200, .obj [("answer", .str "A"), ("sources", .arr [.str "s1"]),
                        ("confidence", .num 1), ("timestamp", .str "ts")])
    ∧ RagProxy.rag_query_route "sec" 2592000 "u" "ts" goodRagBackend
        (some [.word "Bearer", .tok (RagProxy.mintToken (.str "alice") 0 "sec")])
        (.obj [("query", .str "treatment options")])
      = .ok (401, errJson "Token expired") := by
  have h := c3_roundtrip "sec" (by decide) (.str "alice") 0 100 "u" "ts" (by omega) (by omega)
  exact ⟨h.1, h.2.1, h.2.2 2592000 (by omega)⟩

set_option maxRecDepth 8192 in
/-- Claim C2 is false on the code: `dict.get` defaults apply only to absent
keys, so a caller who supplies `"patient_age": null` gets the Python
rendering `None` interpolated into the outbound prompt instead of the
`"Not specified"` placeholder — an absence marker appears in the text. -/
theorem c2_counterexample :
    RagProxy.ragQueryPrompt (.obj [("patient_age", .null)]) (.str "q")
      = .ok "\nPatient Context:\n- Age: None\n- Diagnosis: Not specified\n- Imaging Findings: Not specified\n- Medical History: Not specified\n\nQuery: q\n\nPlease provide evidence-based recommendations including:\n1. Treatment options (conservative vs surgical)\n2. Success rates and outcomes\n3. Risks and contraindications\n4. Evidence from clinical literature\n"
    ∧ containsSub "\nPatient Context:\n- Age: None\n- Diagnosis: Not specified\n- Imaging Findings: Not specified\n- Medical History: Not specified\n\nQuery: q\n\nPlease provide evidence-based recommendations including:\n1. Treatment options (conservative vs surgical)\n2. Success rates and outcomes\n3. Risks and contraindications\n4. Evidence from clinical literature\n" "- Age: None" = true
    ∧ containsSub "\nPatient Context:\n- Age: None\n- Diagnosis: Not specified\n- Imaging Findings: Not specified\n- Medical History: Not specified\n\nQuery: q\n\nPlease provide evidence-based recommendations including:\n1. Treatment options (conservative vs surgical)\n2. Success rates and outcomes\n3. Risks and contraindications\n4. Evidence from clinical literature\n" "- Age: Not specified" = false :=
  ⟨rfl, by decide, by decide⟩

/-- Claim C2 (amended): for every supplied context object (mixed keys
allowed), the `/rag/query` prompt is the fixed template with each of the
four context fields rendered per key: a field renders as `"Not specified"`
whenever its key is absent, and as the `str()` of the stored value —
verbatim, so `null` renders as the absence marker `None` — whenever the key
is present.  The spine prompt is likewise the fixed template over its
per-field renderings, where an absent `symptoms` list renders
`"Not specified"`, an absent `medical_history` summary renders
`"Not specified"`, and an absent `imaging` object renders
`"No imaging data available"`. -/
theorem c2_amended (ctx pd : List (String × Json)) (q : Json) (k : String)
    (p : String × Json) (symStr imStr : String) (mh : Json) :
    RagProxy.ragQueryPrompt (.obj ctx) q = .ok (specRagPromptText ctx q)
    ∧ (ctx.find? (fun r => r.1 == k) = none → fieldRender ctx k = "Not specified")
    ∧ (ctx.find? (fun r => r.1 == k) = some p → fieldRender ctx k = pyStr p.2)
    ∧ (pyJoin ", " (objGetTotal (.obj pd) "symptoms" (.arr [.str "Not specified"])) = .ok symStr →
       pyGetD (objGetTotal (.obj pd) "medical_history" (.obj [])) "summary"
           (.str "Not specified") = .ok mh →
       RagProxy.format_imaging_data (objGetTotal (.obj pd) "imaging" (.obj [])) = .ok imStr →
       RagProxy.spinePrompt (.obj pd) = .ok (specSpinePromptText pd symStr mh imStr))
    ∧ (pd.find? (fun r => r.1 == "symptoms") = none →
       pyJoin ", " (objGetTotal (.obj pd) "symptoms" (.arr [.str "Not specified"]))
         = .ok "Not specified")
    ∧ (pd.find? (fun r => r.1 == "medical_history") = none →
       pyGetD (objGetTotal (.obj pd) "medical_history" (.obj [])) "summary"
           (.str "Not specified") = .ok (.str "Not specified"))
    ∧ (pd.find? (fun r => r.1 == "imaging") = none →
       RagProxy.format_imaging_data (objGetTotal (.obj pd) "imaging" (.obj []))
         = .ok "No imaging data available")
    ∧ pyStr .null = "None" := by
  refine ⟨rfl, ?_, ?_, ?_, ?_, ?_, ?_, rfl⟩
  · intro h
    simp [fieldRender, objGetTotal, h, pyStr]
  · intro h
    simp [fieldRender, objGetTotal, h]
  · intro hsym hmh him
    simp only [RagProxy.spinePrompt, pyGetD_obj, exceptBind_ok, hsym, hmh, him]
    rfl
  · intro h
    rw [show objGetTotal (.obj pd) "symptoms" (.arr [.str "Not specified"])
        = .arr [.str "Not specified"] from by simp [objGetTotal, h]]
    rfl
  · intro h
    rw [show objGetTotal (.obj pd) "medical_history" (.obj [])
        = .obj [] from by simp [objGetTotal, h]]
    rfl
  · intro h
    rw [show objGetTotal (.obj pd) "imaging" (.obj [])
        = .obj [] from by simp [objGetTotal, h]]
    rfl

/-- Witness for C2 (amended) at concrete mixed inputs: in a context that
supplies only `diagnosis`, the absent `patient_age` renders
`"Not specified"` while the present `diagnosis` renders its value verbatim;
and a spine body supplying only a symptoms list gets the joined list with
every other field at its documented default. -/
theorem c2_witness :
    fieldRender [("diagnosis", Json.str "stenosis")] "patient_age" = "Not specified"
    ∧ fieldRender [("diagnosis", Json.str "stenosis")] "diagnosis" = "stenosis"
    ∧ RagProxy.spinePrompt
        (.obj [("symptoms", .arr [.str "leg pain", .str "numbness"])])
      = .ok (specSpinePromptText [("symptoms", .arr [.str "leg pain", .str "numbness"])]
          "leg pain, numbness" (.str "Not specified") "No imaging data available") :=
  ⟨(c2_amended [("diagnosis", Json.str "stenosis")] [] (.str "q") "patient_age"
      ("", .null) "" "" .null).2.1 rfl,
   (c2_amended [("diagnosis", Json.str "stenosis")] [] (.str "q") "diagnosis"
      ("diagnosis", Json.str "stenosis") "" "" .null).2.2.1 rfl,
   (c2_amended [] [("symptoms", .arr [.str "leg pain", .str "numbness"])] (.str "q") ""
      ("", .null) "leg pain, numbness" "No imaging data available"
      (.str "Not specified")).2.2.2.1 rfl rfl rfl⟩

namespace SpineProxy

theorem isErrShaped_errJson (m : String) : isErrShaped (errJson m) = true := rfl

theorem completionPhase_shape (apiKey ragflowUrl : String) (backend : Call → CallOutcome)
    (question session_id : Json) (trace : List Call) :
    (completionPhase apiKey ragflowUrl backend question session_id trace).1.1 = 200
    ∨ isErrShaped (completionPhase apiKey ragflowUrl backend question session_id trace).1.2
        = true := by
  unfold completionPhase
  cases backend (completionCall ragflowUrl apiKey question session_id) with
  | timeout => exact Or.inr rfl
  | netError m => exact Or.inr rfl
  | resp status body =>
    by_cases h : 400 ≤ status
    · right
      simp only [if_pos h]
      exact isErrShaped_errJson _
    · left
      simp only [if_neg h]

theorem query_shape (apiKey ragflowUrl : String) (backend : Call → CallOutcome)
    (body : Json) :
    (query apiKey ragflowUrl backend body).1.1 = 200
    ∨ isErrShaped (query apiKey ragflowUrl backend body).1.2 = true := by
  unfold query
  cases pyGet body "question" with
  | error e => exact Or.inr rfl
  | ok question =>
    cases pyGet body "conversation_id" with
    | error e => exact Or.inr rfl
    | ok conversation_id =>
      by_cases h1 : pyTruthy question
      · simp only [h1, Bool.not_true, Bool.false_eq_true, if_false]
        by_cases h2 : apiKey = ""
        · simp only [if_pos h2]
          exact Or.inr rfl
        · simp only [if_neg h2]
          by_cases h3 : pyTruthy conversation_id
          · simp only [h3, Bool.not_true, Bool.false_eq_true, if_false]
            exact completionPhase_shape apiKey ragflowUrl backend question conversation_id []
          · simp only [h3, Bool.not_false, if_true]
            cases backend (sessionCall ragflowUrl apiKey) with
            | timeout => exact Or.inr rfl
            | netError m => exact Or.inr rfl
            | resp status sbody =>
              by_cases h4 : 400 ≤ status
              · simp only [if_pos h4]
                exact Or.inr rfl
              · simp only [if_neg h4]
                cases sessionId sbody with
                | error e => exact Or.inr rfl
                | ok sid =>
                  exact completionPhase_shape apiKey ragflowUrl backend question sid _
      · simp only [h1, Bool.not_false, if_true]
        exact Or.inr rfl

end SpineProxy

/-- Claim C7 is false on the code: the `/auth/token` handler
(`generate_token`) has no `try`/`except` at all, so when the request body
is JSON `null`, `data.get('api_key')` raises an `AttributeError` that
escapes the route handler instead of being translated into a JSON
`{"error": ...}` body. -/
theorem c7_counterexample :
    RagProxy.generate_token "sec" 0 .null
      = .error (.attributeError "\x27NoneType\x27 object has no attribute \x27get\x27") :=
  rfl

/-- Claim C7 (amended): failures arising inside a route's `try` block are
caught locally and answered as `{"error": "<message>"}` with the matching
status: the `/query` handler of `src/proxy.py` is total and every non-200
outcome carries an error-shaped body; `create_knowledge_base` translates
any `RequestException` into `(500, {"error": ...})`.  But `generate_token`
has no `try` at all: it returns without exception on every JSON-object
body, while a null body raises an uncaught `AttributeError` out of the
handler (see the counterexample). -/
theorem c7_amended (apiKey ragflowUrl secret : String) (backend : Call → CallOutcome)
    (body : Json) (m : String) (now : Int) (kvs : List (String × Json)) :
    ((SpineProxy.query apiKey ragflowUrl backend body).1.1 = 200
      ∨ isErrShaped (SpineProxy.query apiKey ragflowUrl backend body).1.2 = true)
    ∧ RagProxy.create_knowledge_base ragflowUrl (fun _ => .netError m) body
        = .ok (500, errJson "Failed to create knowledge base")
    ∧ (RagProxy.generate_token secret now (.obj kvs)).isOk = true := by
  refine ⟨SpineProxy.query_shape apiKey ragflowUrl backend body, rfl, ?_⟩
  simp only [RagProxy.generate_token, pyGet, pyGetD_obj, exceptBind_ok]
  by_cases h : (!pyTruthy (objGetTotal (.obj kvs) "api_key" .null)
      || !pyEqStr (objGetTotal (.obj kvs) "api_key" .null) secret)
  · simp [h, Except.isOk, Except.toBool]
  · simp [h, Except.isOk, Except.toBool]
